import Mathlib

/-!
Shallow embedding of the IoT edge gateway orchestration core
(`Gateway_Rasp.py`): the in-memory device registry, the SQLite-backed
device / telemetry / commands stores, the MQTT message handlers
(registration, telemetry, status), the health sweep and the retention
purge.  Timestamps are modelled as natural numbers (seconds); the
Python `datetime.now()` calls inside one handler are collapsed into a
single `now` parameter.  The registry dictionary is modelled as an
association list with dictionary-style upsert; SQLite `INSERT OR
REPLACE` / `UPDATE ... WHERE device_id = ?` become the corresponding
keyed list operations.
-/

/-- Mirrors the `DeviceInfo` dataclass.  `last_seen` and
`registration_time` are `Option Nat` because rows loaded from the
database may have `NULL` there and the health sweep tests
`device.last_seen` for truthiness. -/
structure DeviceInfo where
  device_id : String
  device_type : String
  mac_address : String
  ip_address : String
  firmware_version : String
  capabilities : String
  last_seen : Option Nat
  status : String
  registration_time : Option Nat
deriving Repr, DecidableEq

/-- Mirrors the `TelemetryData` dataclass / the `telemetry` table row. -/
structure TelemetryData where
  device_id : String
  timestamp : Nat
  temperature : Option Int
  humidity : Option Int
  wifi_rssi : Option Int
  free_heap : Option Int
  uptime : Option Int
  custom_data : Option String
deriving Repr, DecidableEq

/-- A row of the `commands` table.  The table is created by
`init_database` (with `status DEFAULT 'pending'`). -/
structure CommandRecord where
  device_id : String
  command : String
  parameters : String
  status : String
  created_at : Nat
  executed_at : Option Nat
deriving Repr, DecidableEq

/-- Inbound registration payload: `none` means the JSON key is absent. -/
structure RegistrationPayload where
  device_id : Option String
  device_type : Option String
  mac_address : Option String
  ip_address : Option String
  firmware_version : Option String
  capabilities : Option String
deriving Repr, DecidableEq

/-- Inbound telemetry payload. -/
structure TelemetryPayload where
  device_id : Option String
  temperature : Option Int
  humidity : Option Int
  wifi_rssi : Option Int
  free_heap : Option Int
  uptime : Option Int
  custom_data : Option String
deriving Repr, DecidableEq

/-- Inbound status payload. -/
structure StatusPayload where
  device_id : Option String
  status : Option String
deriving Repr, DecidableEq

/-- The welcome message published on `devices/{id}/commands` by the
registration handler. -/
structure PublishedCommand where
  topic : String
  command : String
  gateway_id : String
  timestamp : Nat
deriving Repr, DecidableEq

/-- One payload handed to `forward_to_cloud` / `send_to_cloud_api`
(`{gateway_id, message_type, timestamp, data}`). -/
structure CloudForward where
  gateway_id : String
  message_type : String
  timestamp : Nat
  data : TelemetryPayload
deriving Repr, DecidableEq

/-- Log lines relevant to the specified behaviour (warning/info/error
diagnostics emitted by the handlers and background loops). -/
inductive LogEntry where
  | telemetryMissingId
  | registrationError
  | deviceRegistered (id : String)
  | statusUpdated (id : String) (status : String)
  | deviceOffline (id : String)
  | cleanedUp (n : Nat)
deriving Repr, DecidableEq

/-- The observable state of one `EdgeGateway` instance: the in-memory
device dictionary, the three database tables, MQTT publishes, queued
cloud forwards, the `cloud_client` attribute (modelled as the Bool
"is set"), and the diagnostics log. -/
structure GatewayState where
  gatewayId : String
  devices : List (String × DeviceInfo)
  dbDevices : List (String × DeviceInfo)
  dbTelemetry : List TelemetryData
  dbCommands : List CommandRecord
  published : List PublishedCommand
  cloudForwards : List CloudForward
  cloudClient : Bool
  logs : List LogEntry
deriving Repr, DecidableEq

/-- Dictionary lookup (`self.devices[k]` / `k in self.devices`). -/
def lookupDevice : List (String × DeviceInfo) → String → Option DeviceInfo
  | [], _ => none
  | e :: t, k => if e.1 == k then some e.2 else lookupDevice t k

/-- Dictionary assignment `self.devices[k] = v` (also SQLite
`INSERT OR REPLACE` keyed on the primary key): replace the entry if
the key is present, append otherwise. -/
def mapUpsert (l : List (String × DeviceInfo)) (k : String) (v : DeviceInfo) :
    List (String × DeviceInfo) :=
  if l.any (fun e => e.1 == k) then
    l.map (fun e => if e.1 == k then (e.1, v) else e)
  else l ++ [(k, v)]

/-- In-place mutation of the entry at key `k` (attribute assignment on
the stored object; also SQLite `UPDATE ... WHERE device_id = k`).
Entries with other keys are untouched; an absent key is a no-op. -/
def mapAdjust (l : List (String × DeviceInfo)) (k : String)
    (f : DeviceInfo → DeviceInfo) : List (String × DeviceInfo) :=
  l.map (fun e => if e.1 == k then (e.1, f e.2) else e)

/-- Number of registry entries stored under key `k`. -/
def countKey (l : List (String × DeviceInfo)) (k : String) : Nat :=
  (l.filter (fun e => e.1 == k)).length

/-- Python truthiness test `not device_id` on the payload field:
true when the key is absent or the value is the empty string. -/
def falsyId : Option String → Bool
  | none => true
  | some s => s == ""

/-- `update_device_status`: `UPDATE devices SET status = ?,
last_seen = now WHERE device_id = ?`. -/
def update_device_status (db : List (String × DeviceInfo)) (device_id : String)
    (status : String) (now : Nat) : List (String × DeviceInfo) :=
  mapAdjust db device_id (fun d => { d with status := status, last_seen := some now })

/-- The fresh `DeviceInfo` constructed by `handle_device_registration`:
note `status='online'` and `registration_time=datetime.now()`
unconditionally. -/
def registeredDevice (p : RegistrationPayload) (did : String) (now : Nat) : DeviceInfo :=
  { device_id := did
    device_type := p.device_type.getD "unknown"
    mac_address := p.mac_address.getD ""
    ip_address := p.ip_address.getD ""
    firmware_version := p.firmware_version.getD ""
    capabilities := p.capabilities.getD ""
    last_seen := some now
    status := "online"
    registration_time := some now }

/-- `handle_device_registration`: `payload['device_id']` raises
`KeyError` when absent (caught and logged, nothing mutated); otherwise
a fresh record is saved (`save_device`, i.e. `INSERT OR REPLACE`),
stored in the in-memory dictionary, and the welcome command is
published on `devices/{id}/commands`. -/
def handle_device_registration (s : GatewayState) (p : RegistrationPayload)
    (now : Nat) : GatewayState :=
  match p.device_id with
  | none => { s with logs := LogEntry.registrationError :: s.logs }
  | some did =>
    { s with
      dbDevices := mapUpsert s.dbDevices did (registeredDevice p did now)
      devices := mapUpsert s.devices did (registeredDevice p did now)
      logs := LogEntry.deviceRegistered did :: s.logs
      published := s.published ++
        [{ topic := "devices/" ++ did ++ "/commands"
           command := "registration_confirmed"
           gateway_id := s.gatewayId
           timestamp := now }] }

/-- The `TelemetryData` record built by `handle_telemetry`. -/
def mkTelemetryRecord (p : TelemetryPayload) (did : String) (now : Nat) : TelemetryData :=
  { device_id := did
    timestamp := now
    temperature := p.temperature
    humidity := p.humidity
    wifi_rssi := p.wifi_rssi
    free_heap := p.free_heap
    uptime := p.uptime
    custom_data := p.custom_data }

/-- `forward_to_cloud`: returns immediately when `self.cloud_client`
is not set, otherwise queues the wrapped payload for the cloud API. -/
def forward_to_cloud (s : GatewayState) (message_type : String)
    (p : TelemetryPayload) (now : Nat) : GatewayState :=
  if s.cloudClient then
    { s with cloudForwards := s.cloudForwards ++
        [{ gateway_id := s.gatewayId, message_type := message_type,
           timestamp := now, data := p }] }
  else s

/-- `handle_telemetry`: drop (with a warning) when `device_id` is
missing or falsy; otherwise touch the device if known (in-memory
only), append the telemetry row, and forward to the cloud only when
`self.cloud_client` is set. -/
def handle_telemetry (s : GatewayState) (p : TelemetryPayload) (now : Nat) :
    GatewayState :=
  if falsyId p.device_id then
    { s with logs := LogEntry.telemetryMissingId :: s.logs }
  else
    let did := p.device_id.getD ""
    let s2 : GatewayState :=
      { s with
        devices := mapAdjust s.devices did
          (fun d => { d with last_seen := some now, status := "online" })
        dbTelemetry := s.dbTelemetry ++ [mkTelemetryRecord p did now] }
    if s2.cloudClient then forward_to_cloud s2 "telemetry" p now else s2

/-- `handle_status_update`: only when the device is already in the
in-memory dictionary, set the supplied status verbatim (default
`'unknown'`), refresh `last_seen`, and persist via
`update_device_status`; otherwise do nothing at all. -/
def handle_status_update (s : GatewayState) (p : StatusPayload) (now : Nat) :
    GatewayState :=
  match p.device_id with
  | none => s
  | some did =>
    if (lookupDevice s.devices did).isSome then
      { s with
        devices := mapAdjust s.devices did
          (fun d => { d with status := p.status.getD "unknown", last_seen := some now })
        dbDevices := update_device_status s.dbDevices did (p.status.getD "unknown") now
        logs := LogEntry.statusUpdated did (p.status.getD "unknown") :: s.logs }
    else s

/-- `offline_threshold = timedelta(minutes=5)`, in seconds. -/
def offline_threshold : Nat := 300

/-- The condition under which `check_device_health` mutates one device:
`last_seen` set, `now - last_seen > threshold`, and `status != 'offline'`
(note: any non-offline status, not only `'online'`). -/
def staleFlag (now : Nat) (d : DeviceInfo) : Bool :=
  match d.last_seen with
  | none => false
  | some t => decide (offline_threshold < now - t) && !(d.status == "offline")

/-- One iteration of the `check_device_health` loop body for entry `e`,
acting on the accumulated state: flip the in-memory status, persist via
`update_device_status(id, 'offline')`, and log a warning. -/
def healthStep (now : Nat) (acc : GatewayState) (e : String × DeviceInfo) :
    GatewayState :=
  if staleFlag now e.2 then
    { acc with
      devices := mapAdjust acc.devices e.1 (fun d => { d with status := "offline" })
      dbDevices := mapAdjust acc.dbDevices e.1
        (fun d => { d with status := "offline", last_seen := some now })
      logs := LogEntry.deviceOffline e.1 :: acc.logs }
  else acc

/-- `check_device_health`: iterate the loop body over the (original)
device dictionary entries. -/
def check_device_health (s : GatewayState) (now : Nat) : GatewayState :=
  s.devices.foldl (healthStep now) s

/-- `cleanup_old_data`: `cutoff = now - timedelta(days=retention_days)`;
`DELETE FROM telemetry WHERE timestamp < cutoff`; log the count when
non-zero. -/
def cleanup_old_data (s : GatewayState) (now : Nat) (retention_days : Nat) :
    GatewayState :=
  let cutoff := now - retention_days * 86400
  let deleted := s.dbTelemetry.countP (fun t => decide (t.timestamp < cutoff))
  { s with
    dbTelemetry := s.dbTelemetry.filter (fun t => !decide (t.timestamp < cutoff))
    logs := if 0 < deleted then LogEntry.cleanedUp deleted :: s.logs else s.logs }

/-- One inbound event the gateway can process: a routed MQTT message or
one tick of a background loop. -/
inductive Msg where
  | registration (p : RegistrationPayload) (now : Nat)
  | telemetry (p : TelemetryPayload) (now : Nat)
  | statusMsg (p : StatusPayload) (now : Nat)
  | healthSweep (now : Nat)
  | cleanup (now : Nat) (retention_days : Nat)

/-- Dispatch one event (the message router plus the two loop bodies). -/
def step (s : GatewayState) : Msg → GatewayState
  | Msg.registration p now => handle_device_registration s p now
  | Msg.telemetry p now => handle_telemetry s p now
  | Msg.statusMsg p now => handle_status_update s p now
  | Msg.healthSweep now => check_device_health s now
  | Msg.cleanup now rd => cleanup_old_data s now rd

/-- A freshly constructed gateway on an empty database:
`self.devices = {}`, `self.cloud_client = None`, all tables empty. -/
def initState (gid : String) : GatewayState :=
  { gatewayId := gid, devices := [], dbDevices := [], dbTelemetry := [],
    dbCommands := [], published := [], cloudForwards := [], cloudClient := false,
    logs := [] }

/-- States reachable from a fresh gateway by processing events. -/
inductive Reachable : GatewayState → Prop
  | init (gid : String) : Reachable (initState gid)
  | step {s : GatewayState} (m : Msg) : Reachable s → Reachable (step s m)

/-- The device-dictionary effect of one health-sweep iteration,
isolated: conditionally adjust the entry at the iterated key. -/
def adjFold (now : Nat) (g : DeviceInfo → DeviceInfo)
    (ds : List (String × DeviceInfo)) (e : String × DeviceInfo) :
    List (String × DeviceInfo) :=
  if staleFlag now e.2 then mapAdjust ds e.1 g else ds

/-- The log effect of one health-sweep iteration, isolated. -/
def logFold (now : Nat) (lg : List LogEntry) (e : String × DeviceInfo) :
    List LogEntry :=
  if staleFlag now e.2 then LogEntry.deviceOffline e.1 :: lg else lg

/-- The spec predicate that a device status is `online` or `offline`. -/
def devStatusOk (d : DeviceInfo) : Bool :=
  d.status == "online" || d.status == "offline"

/-- The spec predicate that every device status is `online` or `offline`,
over the whole in-memory registry. -/
def statusOkB (s : GatewayState) : Bool :=
  s.devices.all (fun e => devStatusOk e.2)

/-- A concrete registration payload with `device_id` `d1` and `device_type` `sensor`. -/
def pReg1 : RegistrationPayload :=
  { device_id := some "d1", device_type := some "sensor", mac_address := none,
    ip_address := none, firmware_version := none, capabilities := none }

/-- A concrete well-formed telemetry payload
with `device_id` `d1` and `temperature` 21. -/
def pTelem1 : TelemetryPayload :=
  { device_id := some "d1", temperature := some 21, humidity := none,
    wifi_rssi := none, free_heap := none, uptime := none, custom_data := none }

/-- The same telemetry payload with the `device_id` key absent. -/
def pTelemNoId : TelemetryPayload := { pTelem1 with device_id := none }

/-- The same telemetry payload with `device_id` present but empty. -/
def pTelemEmptyId : TelemetryPayload := { pTelem1 with device_id := some "" }

/-- A status payload for `d1` with the `status` key absent
(so the handler defaults it to `'unknown'`). -/
def pStatUnknown : StatusPayload := { device_id := some "d1", status := none }

/-- A status payload naming a device that was never registered. -/
def pStatGhost : StatusPayload := { device_id := some "ghost", status := some "online" }

/-- The state after registering `d1` twice, at times 1 and then 2. -/
def regTwiceState : GatewayState :=
  handle_device_registration (handle_device_registration (initState "g") pReg1 1) pReg1 2

/-- A device whose status is neither `'online'` nor `'offline'` and whose
`last_seen` is long in the past. -/
def devUnknownStale : DeviceInfo :=
  { device_id := "d1", device_type := "sensor", mac_address := "", ip_address := "",
    firmware_version := "", capabilities := "", last_seen := some 0,
    status := "unknown", registration_time := some 0 }

/-- A registry holding only `devUnknownStale`. -/
def sUnknownStale : GatewayState :=
  { initState "g" with
    devices := [("d1", devUnknownStale)]
    dbDevices := [("d1", devUnknownStale)] }

/-- The same stale device, but already offline. -/
def devOfflineStale : DeviceInfo := { devUnknownStale with status := "offline" }

/-- A registry holding only `devOfflineStale`. -/
def sOfflineStale : GatewayState :=
  { initState "g" with
    devices := [("d1", devOfflineStale)]
    dbDevices := [("d1", devOfflineStale)] }

/-- A telemetry row far older than any cutoff used below. -/
def tOld : TelemetryData :=
  { device_id := "d1", timestamp := 0, temperature := none, humidity := none,
    wifi_rssi := none, free_heap := none, uptime := none, custom_data := none }

/-- A telemetry row whose timestamp sits exactly on the cutoff
`100000 - 1 * 86400 = 13600` used in the retention witness. -/
def tBoundary : TelemetryData := { tOld with timestamp := 13600 }

/-- A gateway whose telemetry table holds one purgeable row and one row
exactly at the cutoff. -/
def sTel : GatewayState := { initState "g" with dbTelemetry := [tOld, tBoundary] }

/-- The reachable state obtained by registering `d1` and then processing
a status message with no `status` field (stored as `'unknown'`). -/
def stateWithUnknown : GatewayState :=
  step (step (initState "g") (Msg.registration pReg1 0)) (Msg.statusMsg pStatUnknown 1)

/-- Adjusting at key `k` rewrites exactly the looked-up value at `k`. -/
theorem lookupDevice_mapAdjust_self (l : List (String × DeviceInfo)) (k : String)
    (f : DeviceInfo → DeviceInfo) :
    lookupDevice (mapAdjust l k f) k = (lookupDevice l k).map f := by
  induction l with
  | nil => rfl
  | cons e t ih =>
    cases hb : e.1 == k
    · simp [mapAdjust, lookupDevice, hb]
      simpa [mapAdjust] using ih
    · simp [mapAdjust, lookupDevice, hb]

/-- Adjusting at a different key leaves a lookup unchanged. -/
theorem lookupDevice_mapAdjust_ne (l : List (String × DeviceInfo)) (k a : String)
    (f : DeviceInfo → DeviceInfo) (h : (a == k) = false) :
    lookupDevice (mapAdjust l a f) k = lookupDevice l k := by
  induction l with
  | nil => rfl
  | cons e t ih =>
    cases hb : e.1 == a
    · cases hc : e.1 == k
      · simp [mapAdjust, lookupDevice, hb, hc]
        simpa [mapAdjust] using ih
      · simp [mapAdjust, lookupDevice, hb, hc]
    · have hek : e.1 = a := by simpa using hb
      have hc : (e.1 == k) = false := by simpa [hek] using h
      simp [mapAdjust, lookupDevice, hb, hc]
      simpa [mapAdjust] using ih

/-- Looking up `k` after appending a fresh entry `(k, v)` to a list in
which `k` is absent yields `v`. -/
theorem lookupDevice_append_fresh (l : List (String × DeviceInfo)) (k : String)
    (v : DeviceInfo) (ha : l.any (fun e => e.1 == k) = false) :
    lookupDevice (l ++ [(k, v)]) k = some v := by
  induction l with
  | nil => simp [lookupDevice]
  | cons e t ih =>
    have he : (e.1 == k) = false := by
      have := (List.any_eq_false.mp ha) e (by simp)
      simpa using this
    have ht : t.any (fun e => e.1 == k) = false := by
      refine List.any_eq_false.mpr ?_
      intro x hx
      exact (List.any_eq_false.mp ha) x (by simp [hx])
    simpa [lookupDevice, he] using ih ht

/-- Replacing the value at every entry keyed `k` makes a lookup of a
present `k` return the new value. -/
theorem lookupDevice_replace (l : List (String × DeviceInfo)) (k : String)
    (v : DeviceInfo) (ha : l.any (fun e => e.1 == k) = true) :
    lookupDevice (l.map (fun e => if e.1 == k then (e.1, v) else e)) k = some v := by
  induction l with
  | nil => simp at ha
  | cons e t ih =>
    cases he : e.1 == k
    · have ht : t.any (fun e => e.1 == k) = true := by
        rcases List.any_eq_true.mp ha with ⟨x, hx, hxk⟩
        rcases List.mem_cons.mp hx with hx | hx
        · subst hx; simp [he] at hxk
        · exact List.any_eq_true.mpr ⟨x, hx, hxk⟩
      simpa [lookupDevice, he] using ih ht
    · simp [lookupDevice, he]

/-- After an upsert at key `k`, looking up `k` yields the new value. -/
theorem lookupDevice_mapUpsert_self (l : List (String × DeviceInfo)) (k : String)
    (v : DeviceInfo) :
    lookupDevice (mapUpsert l k v) k = some v := by
  cases ha : l.any (fun e => e.1 == k)
  · rw [mapUpsert, ha]
    exact lookupDevice_append_fresh l k v ha
  · rw [mapUpsert, ha]
    exact lookupDevice_replace l k v ha

/-- An entry count of zero at keys not present. -/
theorem countKey_eq_zero_of_not_mem (l : List (String × DeviceInfo)) (k : String)
    (h : k ∉ l.map Prod.fst) : countKey l k = 0 := by
  induction l with
  | nil => rfl
  | cons e t ih =>
    have he : (e.1 == k) = false := by
      simp only [List.map_cons, List.mem_cons] at h
      simp only [beq_eq_false_iff_ne, ne_eq]
      intro hk; exact h (Or.inl hk.symm)
    have ht : k ∉ t.map Prod.fst := by
      simp only [List.map_cons, List.mem_cons] at h
      intro hk; exact h (Or.inr hk)
    have := ih ht
    simpa [countKey, List.filter_cons, he] using this

/-- With duplicate-free keys, a present key is stored exactly once. -/
theorem countKey_eq_one_of_mem (l : List (String × DeviceInfo)) (k : String)
    (hnd : (l.map Prod.fst).Nodup) (hm : l.any (fun e => e.1 == k) = true) :
    countKey l k = 1 := by
  induction l with
  | nil => simp at hm
  | cons e t ih =>
    rw [List.map_cons, List.nodup_cons] at hnd
    cases he : e.1 == k
    · have ht : t.any (fun e => e.1 == k) = true := by
        rcases List.any_eq_true.mp hm with ⟨x, hx, hxk⟩
        rcases List.mem_cons.mp hx with hx | hx
        · subst hx; simp [he] at hxk
        · exact List.any_eq_true.mpr ⟨x, hx, hxk⟩
      simpa [countKey, List.filter_cons, he] using ih hnd.2 ht
    · have hk : e.1 = k := by simpa using he
      have hz : countKey t k = 0 := by
        apply countKey_eq_zero_of_not_mem
        rw [← hk]; exact hnd.1
      simpa [countKey, List.filter_cons, he] using hz

/-- The health sweep decomposes into independent per-field folds over
the original dictionary entries. -/
theorem foldl_healthStep_eq (now : Nat) (l : List (String × DeviceInfo))
    (acc : GatewayState) :
    l.foldl (healthStep now) acc =
      { acc with
        devices :=
          l.foldl (adjFold now (fun d => { d with status := "offline" })) acc.devices
        dbDevices :=
          l.foldl (adjFold now (fun d => { d with status := "offline", last_seen := some now }))
            acc.dbDevices
        logs := l.foldl (logFold now) acc.logs } := by
  induction l generalizing acc with
  | nil => rfl
  | cons e t ih =>
    rw [List.foldl_cons, ih]
    cases hf : staleFlag now e.2 <;> simp [healthStep, adjFold, logFold, hf]

/-- Folding conditional adjustments, viewed through one lookup: the
value at `k` is rewritten by `g` exactly when some iterated entry is
keyed `k` and flagged stale. -/
theorem lookupDevice_foldl_adjFold (now : Nat) (g : DeviceInfo → DeviceInfo)
    (hg : ∀ d, g (g d) = g d) (l : List (String × DeviceInfo)) :
    ∀ (ds : List (String × DeviceInfo)) (k : String),
      lookupDevice (l.foldl (adjFold now g) ds) k =
        if l.any (fun e => e.1 == k && staleFlag now e.2)
        then (lookupDevice ds k).map g
        else lookupDevice ds k := by
  induction l with
  | nil =>
    intro ds k
    simp
  | cons e t ih =>
    intro ds k
    rw [List.foldl_cons]
    cases hf : staleFlag now e.2
    · rw [show adjFold now g ds e = ds from by simp [adjFold, hf]]
      rw [ih ds k]
      simp only [List.any_cons, hf, Bool.and_false, Bool.false_or]
    · rw [show adjFold now g ds e = mapAdjust ds e.1 g from by simp [adjFold, hf]]
      cases hk : e.1 == k
      · rw [ih _ k, lookupDevice_mapAdjust_ne _ _ _ _ hk]
        simp only [List.any_cons, hf, hk, Bool.false_and, Bool.false_or]
      · rw [ih _ k]
        have hek : e.1 = k := by simpa using hk
        rw [hek, lookupDevice_mapAdjust_self]
        cases ha : t.any (fun e => e.1 == k && staleFlag now e.2)
        · simp [ha, hf, hk, hek]
        · simp only [ha, List.any_cons, hek, hf, hk, Bool.and_true, Bool.or_true,
            Option.map_map]
          rw [show g ∘ g = g from funext hg]
          simp

/-- When no device is flagged stale, the sweep body is the identity. -/
theorem foldl_healthStep_id (now : Nat) (l : List (String × DeviceInfo))
    (acc : GatewayState) (h : ∀ e ∈ l, staleFlag now e.2 = false) :
    l.foldl (healthStep now) acc = acc := by
  induction l generalizing acc with
  | nil => rfl
  | cons e t ih =>
    rw [List.foldl_cons]
    rw [show healthStep now acc e = acc from by simp [healthStep, h e (by simp)]]
    exact ih acc (fun x hx => h x (by simp [hx]))

/-- `any` over keys agrees with membership in the key list. -/
theorem any_key_eq_mem (l : List (String × DeviceInfo)) (k : String) :
    l.any (fun e => e.1 == k) = true ↔ k ∈ l.map Prod.fst := by
  simp [List.any_eq_true, List.mem_map]

/-- Upsert at an absent key appends a fresh entry. -/
theorem mapUpsert_absent (l : List (String × DeviceInfo)) (k : String)
    (v : DeviceInfo) (ha : l.any (fun e => e.1 == k) = false) :
    mapUpsert l k v = l ++ [(k, v)] := by
  rw [mapUpsert, ha]; rfl

/-- Upsert at a present key replaces in place. -/
theorem mapUpsert_present (l : List (String × DeviceInfo)) (k : String)
    (v : DeviceInfo) (ha : l.any (fun e => e.1 == k) = true) :
    mapUpsert l k v = l.map (fun e => if e.1 == k then (e.1, v) else e) := by
  rw [mapUpsert, ha]; rfl

/-- A flagged entry makes the sweep fold adjust at its key. -/
theorem adjFold_stale (now : Nat) (g : DeviceInfo → DeviceInfo)
    (ds : List (String × DeviceInfo)) (e : String × DeviceInfo)
    (hf : staleFlag now e.2 = true) :
    adjFold now g ds e = mapAdjust ds e.1 g := by
  rw [adjFold, hf]; rfl

/-- An unflagged entry leaves the sweep fold unchanged. -/
theorem adjFold_fresh (now : Nat) (g : DeviceInfo → DeviceInfo)
    (ds : List (String × DeviceInfo)) (e : String × DeviceInfo)
    (hf : staleFlag now e.2 = false) :
    adjFold now g ds e = ds := by
  rw [adjFold, hf]; rfl

/-- Upsert keeps the key list duplicate-free. -/
theorem nodup_keys_mapUpsert (l : List (String × DeviceInfo)) (k : String)
    (v : DeviceInfo) (hnd : (l.map Prod.fst).Nodup) :
    ((mapUpsert l k v).map Prod.fst).Nodup := by
  cases ha : l.any (fun e => e.1 == k)
  · rw [mapUpsert_absent l k v ha]
    simp only [List.map_append, List.map_cons, List.map_nil]
    have hk : k ∉ l.map Prod.fst := by
      intro hm
      rw [← any_key_eq_mem] at hm
      rw [ha] at hm
      exact Bool.false_ne_true hm
    simp [List.nodup_append, hnd, hk]
  · rw [mapUpsert_present l k v ha]
    have hkeys : (l.map (fun e => if e.1 == k then (e.1, v) else e)).map Prod.fst
        = l.map Prod.fst := by
      rw [List.map_map]
      apply List.map_congr_left
      intro a _
      simp only [Function.comp_apply]
      split <;> rfl
    rw [hkeys]
    exact hnd

/-- Upserting a device with an admissible status preserves the
whole-registry status predicate. -/
theorem all_devStatusOk_mapUpsert (l : List (String × DeviceInfo)) (k : String)
    (v : DeviceInfo) (hv : devStatusOk v = true)
    (h : l.all (fun e => devStatusOk e.2) = true) :
    (mapUpsert l k v).all (fun e => devStatusOk e.2) = true := by
  cases ha : l.any (fun e => e.1 == k)
  · rw [mapUpsert_absent l k v ha]
    simp only [List.all_append, List.all_cons, List.all_nil]
    simp [h, hv]
  · rw [mapUpsert_present l k v ha]
    rw [List.all_eq_true] at h ⊢
    intro e he
    rcases List.mem_map.mp he with ⟨a, ham, rfl⟩
    cases hak : a.1 == k
    · simpa [hak] using h a ham
    · simpa [hak] using hv

/-- Adjusting with a function that always lands in an admissible status
preserves the whole-registry status predicate. -/
theorem all_devStatusOk_mapAdjust (l : List (String × DeviceInfo)) (k : String)
    (g : DeviceInfo → DeviceInfo) (hg : ∀ d, devStatusOk (g d) = true)
    (h : l.all (fun e => devStatusOk e.2) = true) :
    (mapAdjust l k g).all (fun e => devStatusOk e.2) = true := by
  rw [mapAdjust, List.all_eq_true]
  rw [List.all_eq_true] at h
  intro e he
  rcases List.mem_map.mp he with ⟨a, ham, rfl⟩
  cases hak : a.1 == k
  · simpa [hak] using h a ham
  · simpa [hak] using hg a.2

/-- The health-sweep device fold preserves the whole-registry status
predicate whenever the adjusting function lands in an admissible
status. -/
theorem all_devStatusOk_foldl_adjFold (now : Nat) (g : DeviceInfo → DeviceInfo)
    (hg : ∀ d, devStatusOk (g d) = true) (l : List (String × DeviceInfo)) :
    ∀ ds, ds.all (fun e => devStatusOk e.2) = true →
      (l.foldl (adjFold now g) ds).all (fun e => devStatusOk e.2) = true := by
  induction l with
  | nil =>
    intro ds h
    simpa using h
  | cons e t ih =>
    intro ds h
    rw [List.foldl_cons]
    apply ih
    cases hf : staleFlag now e.2
    · rw [adjFold_fresh now g ds e hf]
      exact h
    · rw [adjFold_stale now g ds e hf]
      exact all_devStatusOk_mapAdjust ds e.1 g hg h

/-- `forward_to_cloud` never touches the `cloud_client` attribute. -/
theorem forward_to_cloud_cloudClient (s : GatewayState) (mt : String)
    (p : TelemetryPayload) (now : Nat) :
    (forward_to_cloud s mt p now).cloudClient = s.cloudClient := by
  rw [forward_to_cloud]
  cases h : s.cloudClient <;> simp [h]

/-- No event ever assigns the `cloud_client` attribute. -/
theorem step_cloudClient (s : GatewayState) (m : Msg) :
    (step s m).cloudClient = s.cloudClient := by
  cases m with
  | registration p now =>
    cases hp : p.device_id <;> simp [step, handle_device_registration, hp]
  | telemetry p now =>
    rw [step, handle_telemetry]
    cases hf : falsyId p.device_id
    · rw [if_neg Bool.false_ne_true]
      cases hc : s.cloudClient
      · simp [hc]
      · simp [hc, forward_to_cloud]
    · rw [if_pos rfl]
  | statusMsg p now =>
    cases hp : p.device_id with
    | none => simp [step, handle_status_update, hp]
    | some did =>
      rw [step]
      simp only [handle_status_update, hp]
      cases hls : (lookupDevice s.devices did).isSome <;> rfl
  | healthSweep now =>
    rw [step, check_device_health, foldl_healthStep_eq]
  | cleanup now rd =>
    rw [step, cleanup_old_data]

/-- In every reachable gateway state `cloud_client` is unset: it is
initialised to `None` and no code path ever assigns it. -/
theorem reachable_cloudClient_false (s : GatewayState) (h : Reachable s) :
    s.cloudClient = false := by
  induction h with
  | init gid => rfl
  | step m _ ih => rw [step_cloudClient]; exact ih

/-- A key that `any` misses looks up to nothing. -/
theorem lookupDevice_eq_none_of_not_any (l : List (String × DeviceInfo)) (k : String)
    (ha : l.any (fun e => e.1 == k) = false) : lookupDevice l k = none := by
  induction l with
  | nil => rfl
  | cons e t ih =>
    have he : (e.1 == k) = false := by
      have := (List.any_eq_false.mp ha) e (by simp)
      simpa using this
    have ht : t.any (fun e => e.1 == k) = false := by
      refine List.any_eq_false.mpr ?_
      intro x hx
      exact (List.any_eq_false.mp ha) x (by simp [hx])
    simp only [lookupDevice, he]
    rw [if_neg Bool.false_ne_true]
    exact ih ht

/-- A successful lookup exhibits the key as present. -/
theorem any_key_of_lookup (l : List (String × DeviceInfo)) (k : String)
    (v : DeviceInfo) (h : lookupDevice l k = some v) :
    l.any (fun e => e.1 == k) = true := by
  cases ha : l.any (fun e => e.1 == k)
  · rw [lookupDevice_eq_none_of_not_any l k ha] at h
    exact absurd h (by simp)
  · rfl

/-- The non-falsy branch of `handle_telemetry`, written out: touch the
device in memory, append the telemetry row, and hand off to
`forward_to_cloud` only when the client attribute is set. -/
theorem handle_telemetry_eq (s : GatewayState) (p : TelemetryPayload) (now : Nat)
    (hf : falsyId p.device_id = false) :
    handle_telemetry s p now =
      (if s.cloudClient then
        forward_to_cloud
          { s with
            devices := mapAdjust s.devices (p.device_id.getD "")
              (fun d => { d with last_seen := some now, status := "online" })
            dbTelemetry := s.dbTelemetry ++ [mkTelemetryRecord p (p.device_id.getD "") now] }
          "telemetry" p now
      else
        { s with
          devices := mapAdjust s.devices (p.device_id.getD "")
            (fun d => { d with last_seen := some now, status := "online" })
          dbTelemetry := s.dbTelemetry ++ [mkTelemetryRecord p (p.device_id.getD "") now] }) := by
  rw [handle_telemetry, hf, if_neg Bool.false_ne_true]

/-- `forward_to_cloud` changes at most the list of queued forwards. -/
theorem forward_to_cloud_frame (s : GatewayState) (mt : String)
    (p : TelemetryPayload) (now : Nat) :
    (forward_to_cloud s mt p now).devices = s.devices
    ∧ (forward_to_cloud s mt p now).dbDevices = s.dbDevices
    ∧ (forward_to_cloud s mt p now).dbTelemetry = s.dbTelemetry
    ∧ (forward_to_cloud s mt p now).dbCommands = s.dbCommands
    ∧ (forward_to_cloud s mt p now).logs = s.logs := by
  rw [forward_to_cloud]
  cases h : s.cloudClient <;> simp [h]

/-- C7: for every telemetry message whose payload lacks the `device_id`
field, the message is rejected with a recorded diagnostic: the handler
only prepends the warning to the log, so no Telemetry Record is
created, the registry map is unchanged, and nothing is forwarded to
the cloud. -/
theorem telemetry_missing_id_dropped (s : GatewayState) (p : TelemetryPayload)
    (now : Nat) (h : p.device_id = none) :
    handle_telemetry s p now
      = { s with logs := LogEntry.telemetryMissingId :: s.logs } := by
  have hf : falsyId p.device_id = true := by rw [h]; rfl
  rw [handle_telemetry, hf, if_pos rfl]

/-- C7 witness: the concrete telemetry message with no `device_id`,
processed at the fresh gateway. -/
theorem telemetry_missing_id_dropped_witness :
    handle_telemetry (initState "g") pTelemNoId 4
      = { initState "g" with logs := LogEntry.telemetryMissingId :: (initState "g").logs } :=
  telemetry_missing_id_dropped (initState "g") pTelemNoId 4 rfl

/-- C10: a telemetry message whose `device_id` field is present but
falsy (the empty string) is treated exactly like a missing id: the
handler logs the warning and changes nothing else, because the guard
is Python truthiness (`if not device_id`), not key presence. -/
theorem telemetry_falsy_id_dropped (s : GatewayState) (p : TelemetryPayload)
    (now : Nat) (h : p.device_id = some "") :
    handle_telemetry s p now
      = { s with logs := LogEntry.telemetryMissingId :: s.logs } := by
  have hf : falsyId p.device_id = true := by rw [h]; decide
  rw [handle_telemetry, hf, if_pos rfl]

/-- C10 witness: the concrete telemetry message with an empty
`device_id`, processed at the fresh gateway. -/
theorem telemetry_falsy_id_dropped_witness :
    handle_telemetry (initState "g") pTelemEmptyId 4
      = { initState "g" with logs := LogEntry.telemetryMissingId :: (initState "g").logs } :=
  telemetry_falsy_id_dropped (initState "g") pTelemEmptyId 4 rfl

/-- C9: a status message whose `device_id` does not look up to a
registered device (including a missing `device_id`) leaves the whole
gateway state unchanged: no registry mutation, no database write, no
log entry. -/
theorem status_update_unknown_noop (s : GatewayState) (p : StatusPayload)
    (now : Nat) (h : p.device_id.bind (lookupDevice s.devices) = none) :
    handle_status_update s p now = s := by
  cases hp : p.device_id with
  | none => simp [handle_status_update, hp]
  | some did =>
    rw [hp] at h
    simp only [Option.some_bind] at h
    simp only [handle_status_update, hp, h]
    rfl

/-- C9 witness: a status update for the unregistered id `ghost` at the
fresh gateway is a no-op. -/
theorem status_update_unknown_noop_witness :
    handle_status_update (initState "g") pStatGhost 7 = initState "g" :=
  status_update_unknown_noop (initState "g") pStatGhost 7 rfl

/-- C8: handling a registration payload carrying `device_id` `d`
persists a device row for `d` with status `online` (both in memory and
in the devices table) and publishes one message on
`devices/d/commands` whose command is `registration_confirmed` and
which carries the gateway identifier and the current timestamp. -/
theorem registration_confirms_and_persists (s : GatewayState)
    (p : RegistrationPayload) (d : String) (now : Nat) (h : p.device_id = some d) :
    lookupDevice (handle_device_registration s p now).devices d
        = some (registeredDevice p d now)
    ∧ lookupDevice (handle_device_registration s p now).dbDevices d
        = some (registeredDevice p d now)
    ∧ (registeredDevice p d now).status = "online"
    ∧ (handle_device_registration s p now).published = s.published ++
        [{ topic := "devices/" ++ d ++ "/commands"
           command := "registration_confirmed"
           gateway_id := s.gatewayId
           timestamp := now }] := by
  simp only [handle_device_registration, h]
  refine ⟨lookupDevice_mapUpsert_self _ _ _, lookupDevice_mapUpsert_self _ _ _, rfl, ?_⟩
  trivial

/-- C8 witness: registering `d1` at the fresh gateway at time 9. -/
theorem registration_confirms_and_persists_witness :
    lookupDevice (handle_device_registration (initState "g") pReg1 9).devices "d1"
      = some (registeredDevice pReg1 "d1" 9) :=
  (registration_confirms_and_persists (initState "g") pReg1 "d1" 9 rfl).1

/-- C6: one retention run deletes exactly the telemetry rows with
timestamp strictly below `cutoff = now - retention_days`; a row whose
timestamp equals the cutoff is retained, and the surviving rows are a
sublist of the original table (so rows at or after the cutoff are
unchanged and keep their order). -/
theorem cleanup_retention_boundary (s : GatewayState) (now retention_days : Nat) :
    (∀ t : TelemetryData,
        t ∈ (cleanup_old_data s now retention_days).dbTelemetry
          ↔ t ∈ s.dbTelemetry ∧ ¬ t.timestamp < now - retention_days * 86400)
    ∧ (∀ t : TelemetryData, t ∈ s.dbTelemetry →
        t.timestamp = now - retention_days * 86400 →
        t ∈ (cleanup_old_data s now retention_days).dbTelemetry)
    ∧ List.Sublist (cleanup_old_data s now retention_days).dbTelemetry s.dbTelemetry := by
  refine ⟨?_, ?_, ?_⟩
  · intro t
    simp [cleanup_old_data, List.mem_filter]
  · intro t hm he
    simp [cleanup_old_data, List.mem_filter, hm, he]
  · simp only [cleanup_old_data]
    exact List.filter_sublist _

/-- C6 witness: with `now = 100000` and one retention day the cutoff is
13600, and the row timestamped exactly 13600 survives the purge. -/
theorem cleanup_retention_boundary_witness :
    tBoundary ∈ (cleanup_old_data sTel 100000 1).dbTelemetry :=
  (cleanup_retention_boundary sTel 100000 1).2.1 tBoundary (by decide) (by decide)

/-- C3 counterexample: handling the concrete registration for `d1` at
the fresh gateway leaves the commands store empty — no Command record
(pending or otherwise) is created, contrary to the claim. -/
theorem registration_no_command_record_cex :
    (handle_device_registration (initState "g") pReg1 5).dbCommands = [] := by
  rfl

/-- C3 amended: no event ever writes the commands store; in particular
a handled registration creates no Command record — the
registration-confirmation instruction is published on
`devices/d/commands` over MQTT instead, and the commands table stays
exactly as it was. -/
theorem commands_store_never_written (s : GatewayState) (m : Msg) :
    (step s m).dbCommands = s.dbCommands := by
  cases m with
  | registration p now =>
    cases hp : p.device_id <;> simp [step, handle_device_registration, hp]
  | telemetry p now =>
    cases hf : falsyId p.device_id
    · rw [step, handle_telemetry_eq s p now hf]
      cases hc : s.cloudClient
      · rw [if_neg Bool.false_ne_true]
      · rw [if_pos rfl]
        exact (forward_to_cloud_frame _ _ _ _).2.2.2.1
    · rw [step, handle_telemetry, hf, if_pos rfl]
  | statusMsg p now =>
    cases hp : p.device_id with
    | none => simp [step, handle_status_update, hp]
    | some did =>
      rw [step]
      simp only [handle_status_update, hp]
      cases hls : (lookupDevice s.devices did).isSome <;> rfl
  | healthSweep now =>
    rw [step, check_device_health, foldl_healthStep_eq]
  | cleanup now rd =>
    rw [step, cleanup_old_data]

/-- C1 counterexample: registering `d1` at time 1 stores
`registration_time = 1`, and re-registering the same id at time 2
overwrites it with `registration_time = 2` — the second registration
does not preserve the first registration time. -/
theorem reregistration_resets_time_cex :
    ((lookupDevice (handle_device_registration (initState "g") pReg1 1).devices "d1").map
        DeviceInfo.registration_time = some (some 1))
    ∧ ((lookupDevice regTwiceState.devices "d1").map DeviceInfo.registration_time
        = some (some 2)) := by
  constructor
  · rfl
  · rfl

/-- C1 amended: handling a second registration for an id already
present (given duplicate-free registry keys, as a dictionary
guarantees) yields exactly one registry entry, with `last_seen` set to
now and status `online`, but whose `registration_time` equals the time
of the second registration — the handler rebuilds the record with
`registration_time = now`, so re-registration resets it. -/
theorem reregistration_single_entry (s : GatewayState) (p : RegistrationPayload)
    (d : String) (now1 now2 : Nat) (h : p.device_id = some d)
    (hnd : (s.devices.map Prod.fst).Nodup) :
    countKey (handle_device_registration
        (handle_device_registration s p now1) p now2).devices d = 1
    ∧ lookupDevice (handle_device_registration
        (handle_device_registration s p now1) p now2).devices d
        = some (registeredDevice p d now2)
    ∧ (registeredDevice p d now2).registration_time = some now2
    ∧ (registeredDevice p d now2).last_seen = some now2
    ∧ (registeredDevice p d now2).status = "online" := by
  have hdev : (handle_device_registration
      (handle_device_registration s p now1) p now2).devices
      = mapUpsert (mapUpsert s.devices d (registeredDevice p d now1)) d
          (registeredDevice p d now2) := by
    simp [handle_device_registration, h]
  have hnd2 : ((mapUpsert (mapUpsert s.devices d (registeredDevice p d now1)) d
      (registeredDevice p d now2)).map Prod.fst).Nodup :=
    nodup_keys_mapUpsert _ _ _ (nodup_keys_mapUpsert _ _ _ hnd)
  have hlk : lookupDevice (mapUpsert (mapUpsert s.devices d (registeredDevice p d now1)) d
      (registeredDevice p d now2)) d = some (registeredDevice p d now2) :=
    lookupDevice_mapUpsert_self _ _ _
  refine ⟨?_, ?_, rfl, rfl, rfl⟩
  · rw [hdev]
    exact countKey_eq_one_of_mem _ _ hnd2 (any_key_of_lookup _ _ _ hlk)
  · rw [hdev]
    exact hlk

/-- C1 witness: the two concrete registrations of `d1` at times 1 and
2, started from the fresh gateway. -/
theorem reregistration_single_entry_witness :
    countKey regTwiceState.devices "d1" = 1
    ∧ lookupDevice regTwiceState.devices "d1" = some (registeredDevice pReg1 "d1" 2)
    ∧ (registeredDevice pReg1 "d1" 2).registration_time = some 2
    ∧ (registeredDevice pReg1 "d1" 2).last_seen = some 2
    ∧ (registeredDevice pReg1 "d1" 2).status = "online" :=
  reregistration_single_entry (initState "g") pReg1 "d1" 1 2 rfl (by decide)

/-- C4 counterexample: a registry whose only device has status
`unknown` (reachable via a status message with no `status` field) and
a stale `last_seen` — one sweep still demotes it to `offline`, even
though its status was not `online`, refuting "transitions ... exactly
when its status is online and now - last_seen exceeds the
threshold". -/
theorem health_flags_non_online_cex :
    devUnknownStale.status ≠ "online"
    ∧ (lookupDevice (check_device_health sUnknownStale 1000).devices "d1").map
        DeviceInfo.status = some "offline" := by
  constructor
  · decide
  · rfl

/-- C4 amended: one sweep transitions a device to `offline` exactly
when its `last_seen` is set, `now - last_seen` exceeds the 300-second
threshold, and its status is not already `offline` (any non-offline
status, not only `online`, is demoted); the demotion is persisted with
a fresh `last_seen` in the device row; a sweep over a registry with no
such device changes nothing; and an already-offline device is never
flagged, so it is not re-flagged, re-persisted or re-logged by a
subsequent sweep. -/
theorem check_device_health_spec (s : GatewayState) (now : Nat) :
    (∀ k, lookupDevice (check_device_health s now).devices k =
        if s.devices.any (fun e => e.1 == k && staleFlag now e.2)
        then (lookupDevice s.devices k).map (fun d => { d with status := "offline" })
        else lookupDevice s.devices k)
    ∧ (∀ k, lookupDevice (check_device_health s now).dbDevices k =
        if s.devices.any (fun e => e.1 == k && staleFlag now e.2)
        then (lookupDevice s.dbDevices k).map
          (fun d => { d with status := "offline", last_seen := some now })
        else lookupDevice s.dbDevices k)
    ∧ ((∀ e ∈ s.devices, staleFlag now e.2 = false) → check_device_health s now = s)
    ∧ (∀ d : DeviceInfo, d.status = "offline" → staleFlag now d = false)
    ∧ (∀ (d : DeviceInfo) (t : Nat), d.status ≠ "offline" → d.last_seen = some t →
        offline_threshold < now - t → staleFlag now d = true) := by
  refine ⟨?_, ?_, ?_, ?_, ?_⟩
  · intro k
    rw [check_device_health, foldl_healthStep_eq]
    exact lookupDevice_foldl_adjFold now (fun d => { d with status := "offline" })
      (fun d => rfl) s.devices s.devices k
  · intro k
    rw [check_device_health, foldl_healthStep_eq]
    exact lookupDevice_foldl_adjFold now
      (fun d => { d with status := "offline", last_seen := some now })
      (fun d => rfl) s.devices s.dbDevices k
  · intro hall
    rw [check_device_health]
    exact foldl_healthStep_id now s.devices s hall
  · intro d hd
    unfold staleFlag
    cases hls : d.last_seen with
    | none => rfl
    | some t => simp [hd]
  · intro d t hst hls hgt
    unfold staleFlag
    rw [hls]
    simp [hgt, hst]

/-- C4 witness: a sweep at time 1000 over a registry whose only device
is already offline is the identity — nothing is re-flagged,
re-persisted or re-logged. -/
theorem check_device_health_spec_witness :
    check_device_health sOfflineStale 1000 = sOfflineStale :=
  (check_device_health_spec sOfflineStale 1000).2.2.1 (by decide)

/-- C5 counterexample: the reachable state obtained by registering `d1`
and then handling a status message with no `status` field has a device
whose status is `unknown` — outside the claimed online/offline set. -/
theorem status_invariant_cex :
    Reachable stateWithUnknown ∧ statusOkB stateWithUnknown = false := by
  constructor
  · exact Reachable.step (Msg.statusMsg pStatUnknown 1)
      (Reachable.step (Msg.registration pReg1 0) (Reachable.init "g"))
  · decide

/-- C5 amended: registration, telemetry handling, the health sweep and
the retention purge all preserve "every device status is `online` or
`offline`"; the predicate fails to be an invariant only because status
handling stores the status string supplied by the payload verbatim
(default `unknown`). -/
theorem status_set_preserved (s : GatewayState) (h : statusOkB s = true) :
    (∀ (p : RegistrationPayload) (now : Nat),
        statusOkB (handle_device_registration s p now) = true)
    ∧ (∀ (p : TelemetryPayload) (now : Nat),
        statusOkB (handle_telemetry s p now) = true)
    ∧ (∀ now : Nat, statusOkB (check_device_health s now) = true)
    ∧ (∀ (now rd : Nat), statusOkB (cleanup_old_data s now rd) = true) := by
  rw [statusOkB] at h
  refine ⟨?_, ?_, ?_, ?_⟩
  · intro p now
    cases hp : p.device_id with
    | none => simpa [statusOkB, handle_device_registration, hp] using h
    | some did =>
      rw [statusOkB]
      simp only [handle_device_registration, hp]
      exact all_devStatusOk_mapUpsert _ _ _ rfl h
  · intro p now
    rw [statusOkB]
    cases hf : falsyId p.device_id
    · rw [handle_telemetry_eq s p now hf]
      cases hc : s.cloudClient
      · rw [if_neg Bool.false_ne_true]
        exact all_devStatusOk_mapAdjust s.devices (p.device_id.getD "")
          (fun d => { d with last_seen := some now, status := "online" })
          (fun d => rfl) h
      · rw [if_pos rfl, (forward_to_cloud_frame _ _ _ _).1]
        exact all_devStatusOk_mapAdjust s.devices (p.device_id.getD "")
          (fun d => { d with last_seen := some now, status := "online" })
          (fun d => rfl) h
    · rw [handle_telemetry, hf, if_pos rfl]
      exact h
  · intro now
    rw [statusOkB, check_device_health, foldl_healthStep_eq]
    exact all_devStatusOk_foldl_adjFold now (fun d => { d with status := "offline" })
      (fun d => rfl) s.devices s.devices h
  · intro now rd
    rw [statusOkB]
    simpa [cleanup_old_data] using h

/-- C5 witness: the predicate holds at the fresh gateway and is
preserved by registering `d1` there. -/
theorem status_set_preserved_witness :
    statusOkB (handle_device_registration (initState "g") pReg1 3) = true :=
  (status_set_preserved (initState "g") (by decide)).1 pReg1 3

/-- C2: in every reachable state, handling a well-formed telemetry
message persists the Telemetry Record but attempts no cloud forward:
the handler guards the hand-off on the `cloud_client` attribute, which
is initialised unset and never assigned by any code path. -/
theorem reachable_no_cloud_forward (s : GatewayState) (hr : Reachable s)
    (p : TelemetryPayload) (now : Nat) :
    (handle_telemetry s p now).cloudForwards = s.cloudForwards
    ∧ (falsyId p.device_id = false →
        (handle_telemetry s p now).dbTelemetry
          = s.dbTelemetry ++ [mkTelemetryRecord p (p.device_id.getD "") now]) := by
  have hc : s.cloudClient = false := reachable_cloudClient_false s hr
  constructor
  · cases hf : falsyId p.device_id
    · rw [handle_telemetry_eq s p now hf, hc, if_neg Bool.false_ne_true]
    · rw [handle_telemetry, hf, if_pos rfl]
  · intro hf
    rw [handle_telemetry_eq s p now hf, hc, if_neg Bool.false_ne_true]

/-- C2 witness: the concrete well-formed telemetry message for `d1` at
the freshly started gateway is persisted, yet the list of queued cloud
forwards stays exactly as it was (empty). -/
theorem reachable_no_cloud_forward_witness :
    (handle_telemetry (initState "gateway_001") pTelem1 3).cloudForwards
      = (initState "gateway_001").cloudForwards
    ∧ (falsyId pTelem1.device_id = false →
        (handle_telemetry (initState "gateway_001") pTelem1 3).dbTelemetry
          = (initState "gateway_001").dbTelemetry
            ++ [mkTelemetryRecord pTelem1 (pTelem1.device_id.getD "") 3]) :=
  reachable_no_cloud_forward (initState "gateway_001")
    (Reachable.init "gateway_001") pTelem1 3
